import Mathlib

/-!
Verification development for the email-outreach automation script
(src/index.py, class EmailAutomation). The mutable object state
(self.sent_emails and the durable tracker file) is embedded as an explicit
state record threaded through the operations; external collaborators
(SMTP transport, filesystem) are embedded as boolean oracles consulted at
the interface boundary, exactly where the source calls them. ISO-8601
timestamp strings are embedded as a type that is either the well-formed
rendering of an integral time in seconds or a malformed string, matching
the two outcomes of datetime.fromisoformat on a stored string.
-/

set_option autoImplicit false

/-- A stored timestamp string: either the ISO rendering of a send time
(an integral number of seconds), or a malformed string that
datetime.fromisoformat rejects. -/
inductive TimeStr where
  | iso (t : Int)
  | malformed (s : String)
deriving DecidableEq, Repr

/-- Embeds datetime.fromisoformat on a stored tracker value: succeeds
exactly on well-formed timestamp strings, yielding the time in seconds. -/
def fromisoformat : TimeStr → Option Int
  | TimeStr.iso t => some t
  | TimeStr.malformed _ => none

/-- A recipient record: the named fields of one CSV row, as produced by
csv.DictReader. -/
abbrev Row := List (String × String)

/-- Embeds dictionary lookup row.get(k) and row[k]: the first binding of
the key, if any. -/
def lookupField (row : Row) (k : String) : Option String :=
  (row.find? (fun p => p.1 == k)).map (fun p => p.2)

/-- The sent-emails tracker dictionary: recipient address mapped to the
timestamp string of the last successful send. -/
abbrev Tracker := List (String × TimeStr)

/-- Embeds the membership test and lookup self.sent_emails[email]. -/
def lookupTracker (tr : Tracker) (e : String) : Option TimeStr :=
  (tr.find? (fun p => p.1 == e)).map (fun p => p.2)

/-- Embeds the dictionary assignment self.sent_emails[email] = timestamp:
overwrite the binding when the key is present, append it otherwise. -/
def upsertTracker : Tracker → String → TimeStr → Tracker
  | [], e, t => [(e, t)]
  | (k, v) :: rest, e, t =>
    if k == e then (k, t) :: rest else (k, v) :: upsertTracker rest e t

/-- The mutable state of one EmailAutomation object: the in-memory tracker
self.sent_emails and the contents of the durable tracker file
sent_emails_tracker.json. -/
structure EmailAutomation where
  sent_emails : Tracker
  saved_tracker : Tracker
deriving DecidableEq, Repr

/-- Embeds save_sent_tracker: write the in-memory tracker to the durable
file (the success path of the try block). -/
def save_sent_tracker (st : EmailAutomation) : EmailAutomation :=
  { st with saved_tracker := st.sent_emails }

/-- Embeds mark_email_as_sent: upsert the tracker entry for the address
with the rendering of the current time, then save the tracker. -/
def mark_email_as_sent (st : EmailAutomation) (email : String) (now : Int) :
    EmailAutomation :=
  save_sent_tracker
    { st with sent_emails := upsertTracker st.sent_emails email (TimeStr.iso now) }

/-- Embeds is_email_sent_recently: false when the address is absent; else
parse the stored timestamp, returning false on parse failure (the bare
except), and otherwise compare the elapsed seconds with hours * 3600. -/
def is_email_sent_recently (st : EmailAutomation) (email : String) (now : Int)
    (hours : Int) : Bool :=
  match lookupTracker st.sent_emails email with
  | none => false
  | some ts =>
    match fromisoformat ts with
    | none => false
    | some sent_time => decide (now - sent_time < hours * 3600)

/-- One piece of a message template string: literal text or a named
placeholder written between braces. -/
inductive TplPiece where
  | lit (s : String)
  | hole (k : String)
deriving DecidableEq, Repr

/-- A template string, split into literal and placeholder pieces. -/
abbrev Template := List TplPiece

/-- The raw text of one template piece, braces kept around placeholders. -/
def rawPiece : TplPiece → String
  | TplPiece.lit s => s
  | TplPiece.hole k => "\x7b" ++ k ++ "\x7d"

/-- The raw template string: what Python holds before .format runs. -/
def rawTemplate (tpl : Template) : String :=
  String.join (tpl.map rawPiece)

/-- Embeds template.format(**data): substitutes every placeholder from the
record, failing (KeyError) when a referenced key is absent. -/
def formatTemplate (tpl : Template) (data : Row) : Option String :=
  match tpl with
  | [] => some ""
  | TplPiece.lit s :: rest => (formatTemplate rest data).map (fun r => s ++ r)
  | TplPiece.hole k :: rest =>
    match lookupField data k with
    | none => none
    | some v => (formatTemplate rest data).map (fun r => v ++ r)

/-- Embeds personalize_message: the formatted string on success; on
KeyError the error is logged and the raw template is returned. -/
def personalize_message (tpl : Template) (data : Row) : String :=
  match formatTemplate tpl data with
  | some s => s
  | none => rawTemplate tpl

/-- Embeds the default cover letter built inside send_cv_application when
no custom letter is supplied: a fixed text mentioning the company
(abridged to its company-dependent core; the full prose does not affect
control flow). -/
def default_cover_letter (company : String) : String :=
  "Bonjour, je vous adresse ma candidature spontanee au sein de " ++ company

/-- Embeds send_single_email at the transport interface boundary: one
message is handed to smtp_server.send_message for the recipient, the
oracle smtp gives the outcome (the except branch returns False), and the
second component records the transport invocations made. -/
def send_single_email (smtp : String → Bool) (recipient_email : String)
    (subject : String) (body_text : String) (body_html : Option String)
    (attachments : Option (List String)) : Bool × List String :=
  (smtp recipient_email, [recipient_email])

/-- Embeds send_cv_application: when os.path.exists fails for the CV path
the function returns False without any transport invocation; otherwise it
builds the application message (default letter when none is given) and
sends it with the CV attached. -/
def send_cv_application (fs : String → Bool) (smtp : String → Bool)
    (recipient_email : String) (recipient_name : String) (company : String)
    (position : String) (cv_path : String) (cover_letter : Option String) :
    Bool × List String :=
  if fs cv_path then
    let subject := "Candidature spontanee - Alternance Developpeur Full Stack"
    let body_text := cover_letter.getD (default_cover_letter company)
    let body_html := default_cover_letter company
    send_single_email smtp recipient_email subject body_text (some body_html)
      (some [cv_path])
  else
    (false, [])

/-- The statistics dictionary of send_bulk_emails: it has no skipped key. -/
structure BulkStats where
  sent : Nat
  failed : Nat
  total : Nat
deriving DecidableEq, Repr

/-- The observable outcome of one send_bulk_emails run: the returned
statistics, the object state after the run, the transport invocations
made, and whether the iteration was ended early by the exception the
outer except block catches. -/
structure BulkRun where
  stats : BulkStats
  st : EmailAutomation
  attempts : List String
  aborted : Bool
deriving DecidableEq, Repr

/-- Embeds the for-loop of send_bulk_emails over the CSV rows. Each row
increments total, is personalized, and is sent to row[email]; when the
email key is absent that subscript raises KeyError, which the outer
except catches, ending the loop with the statistics accumulated so far. -/
def send_bulk_emails_loop (smtp : String → Bool) (subject_template : Template)
    (body_template : Template) (html_template : Option Template) :
    List Row → BulkStats → EmailAutomation → BulkRun
  | [], stats, st => ⟨stats, st, [], false⟩
  | row :: rest, stats, st =>
    let stats1 : BulkStats := { stats with total := stats.total + 1 }
    let subject := personalize_message subject_template row
    let body_text := personalize_message body_template row
    let body_html := html_template.map (fun t => personalize_message t row)
    match lookupField row "email" with
    | none => ⟨stats1, st, [], true⟩
    | some email =>
      let r := send_single_email smtp email subject body_text body_html none
      let stats2 : BulkStats :=
        if r.1 then { stats1 with sent := stats1.sent + 1 }
        else { stats1 with failed := stats1.failed + 1 }
      let res := send_bulk_emails_loop smtp subject_template body_template
        html_template rest stats2 st
      ⟨res.stats, res.st, r.2 ++ res.attempts, res.aborted⟩

/-- Embeds send_bulk_emails: statistics start at zero and the rows are
processed in order; the object state is untouched by the body. -/
def send_bulk_emails (smtp : String → Bool) (st : EmailAutomation)
    (rows : List Row) (subject_template : Template) (body_template : Template)
    (html_template : Option Template) : BulkRun :=
  send_bulk_emails_loop smtp subject_template body_template html_template rows
    ⟨0, 0, 0⟩ st

/-- The statistics dictionary of send_bulk_cv_applications, with the
optional error entry set by the top attachment check or the outer
except block. -/
structure CvStats where
  sent : Nat
  failed : Nat
  total : Nat
  skipped : Nat
  error : Option String
deriving DecidableEq, Repr

/-- The observable outcome of one send_bulk_cv_applications run: returned
statistics, object state after the run, transport invocations made, and
whether the batch cap break ended the iteration. -/
structure CvRun where
  stats : CvStats
  st : EmailAutomation
  attempts : List String
  truncated : Bool
deriving DecidableEq, Repr

/-- Embeds the for-loop of send_bulk_cv_applications: per row, increment
total, extract fields with defaults, skip when check_duplicates finds a
recent send, break when sent has reached max_emails, else personalize the
cover letter when a template is given and send the application, marking
the address on success and counting failure otherwise. -/
def send_bulk_cv_applications_loop (fs : String → Bool) (smtp : String → Bool)
    (cv_path : String) (cover_letter_template : Option Template)
    (check_duplicates : Bool) (max_emails : Nat) (now : Int) :
    List Row → CvStats → EmailAutomation → CvRun
  | [], stats, st => ⟨stats, st, [], false⟩
  | row :: rest, stats, st =>
    let stats1 : CvStats := { stats with total := stats.total + 1 }
    let recipient_email := (lookupField row "email").getD ""
    let recipient_name := (lookupField row "nom").getD "Madame/Monsieur"
    let company := (lookupField row "entreprise").getD "votre entreprise"
    let position := (lookupField row "poste").getD "le poste propose"
    if check_duplicates && is_email_sent_recently st recipient_email now 24 then
      send_bulk_cv_applications_loop fs smtp cv_path cover_letter_template
        check_duplicates max_emails now rest
        { stats1 with skipped := stats1.skipped + 1 } st
    else if stats1.sent ≥ max_emails then
      ⟨stats1, st, [], true⟩
    else
      let cover_letter := cover_letter_template.map
        (fun t => personalize_message t row)
      let r := send_cv_application fs smtp recipient_email recipient_name
        company position cv_path cover_letter
      if r.1 then
        let st2 := mark_email_as_sent st recipient_email now
        let res := send_bulk_cv_applications_loop fs smtp cv_path
          cover_letter_template check_duplicates max_emails now rest
          { stats1 with sent := stats1.sent + 1 } st2
        ⟨res.stats, res.st, r.2 ++ res.attempts, res.truncated⟩
      else
        let res := send_bulk_cv_applications_loop fs smtp cv_path
          cover_letter_template check_duplicates max_emails now rest
          { stats1 with failed := stats1.failed + 1 } st
        ⟨res.stats, res.st, r.2 ++ res.attempts, res.truncated⟩

/-- Embeds send_bulk_cv_applications: when os.path.exists fails for the
CV path, return the zeroed statistics with the error entry and no
transport invocation; otherwise run the loop with zeroed statistics and
max_emails from the configuration. -/
def send_bulk_cv_applications (fs : String → Bool) (smtp : String → Bool)
    (st : EmailAutomation) (rows : List Row) (cv_path : String)
    (cover_letter_template : Option Template) (check_duplicates : Bool)
    (max_emails : Nat) (now : Int) : CvRun :=
  if fs cv_path then
    send_bulk_cv_applications_loop fs smtp cv_path cover_letter_template
      check_duplicates max_emails now rows ⟨0, 0, 0, 0, none⟩ st
  else
    ⟨⟨0, 0, 0, 0, some "CV file not found"⟩, st, [], false⟩

/-- Looking up the upserted key yields the new timestamp. -/
theorem lookupTracker_upsert_self (tr : Tracker) (e : String) (t : TimeStr) :
    lookupTracker (upsertTracker tr e t) e = some t := by
  induction tr with
  | nil => simp [upsertTracker, lookupTracker]
  | cons p rest ih =>
    obtain ⟨k, v⟩ := p
    by_cases h : k = e
    · subst h
      simp [upsertTracker, lookupTracker]
    · have hb : (k == e) = false := by simp [h]
      simpa [upsertTracker, lookupTracker, hb] using ih

/-- The keys of the upserted tracker: unchanged when the key was already
bound, the key appended otherwise. -/
theorem keys_upsertTracker (tr : Tracker) (e : String) (t : TimeStr) :
    (upsertTracker tr e t).map Prod.fst
      = if tr.any (fun p => p.1 == e) then tr.map Prod.fst
        else tr.map Prod.fst ++ [e] := by
  induction tr with
  | nil => simp [upsertTracker]
  | cons p rest ih =>
    obtain ⟨k, v⟩ := p
    by_cases hk : k = e
    · subst hk
      simp [upsertTracker]
    · have hb : (k == e) = false := by simp [hk]
      by_cases ha : rest.any (fun p => p.1 == e)
      · simp [upsertTracker, hb, ha, ih]
      · simp only [Bool.not_eq_true] at ha
        simp [upsertTracker, hb, ha, ih]

/-- A key that the membership test rejects is not among the keys. -/
theorem not_mem_keys_of_any_eq_false (tr : Tracker) (e : String)
    (h : tr.any (fun p => p.1 == e) = false) :
    e ∉ tr.map Prod.fst := by
  intro hmem
  rw [List.mem_map] at hmem
  obtain ⟨p, hp, hpe⟩ := hmem
  rw [List.any_eq_false] at h
  exact h p hp (by simp [hpe])

/-- Upserting preserves distinctness of tracker keys. -/
theorem nodup_keys_upsertTracker (tr : Tracker) (e : String) (t : TimeStr)
    (h : (tr.map Prod.fst).Nodup) :
    ((upsertTracker tr e t).map Prod.fst).Nodup := by
  rw [keys_upsertTracker]
  by_cases ha : tr.any (fun p => p.1 == e)
  · simpa [ha] using h
  · simp only [Bool.not_eq_true] at ha
    rw [if_neg (by simp [ha])]
    rw [List.nodup_append]
    refine ⟨h, List.nodup_singleton e, ?_⟩
    intro a hmem hself
    rw [List.mem_singleton] at hself
    subst hself
    exact not_mem_keys_of_any_eq_false tr a ha hmem

/-- A placeholder missing from the record makes .format raise KeyError. -/
theorem formatTemplate_eq_none_of_missing (tpl : Template) (data : Row)
    (k : String) (hmem : TplPiece.hole k ∈ tpl)
    (hlook : lookupField data k = none) :
    formatTemplate tpl data = none := by
  induction tpl with
  | nil => simp at hmem
  | cons p rest ih =>
    cases p with
    | lit s =>
      have hr : TplPiece.hole k ∈ rest := by
        rcases List.mem_cons.mp hmem with h1 | h2
        · exact absurd h1 (by simp)
        · exact h2
      simp [formatTemplate, ih hr]
    | hole k2 =>
      rcases List.mem_cons.mp hmem with h1 | h2
      · have hkk : k2 = k := by
          injection h1.symm
        subst hkk
        simp [formatTemplate, hlook]
      · cases hlk : lookupField data k2 with
        | none => simp [formatTemplate, hlk]
        | some v => simp [formatTemplate, hlk, ih h2]

/-- C3. The recency check returns true exactly when a tracker entry
exists for the address, its stored timestamp parses, and the elapsed
seconds are strictly below hours * 3600; absence of the entry and a
malformed stored timestamp therefore both give false, with no
exception escaping. -/
theorem is_email_sent_recently_iff (st : EmailAutomation) (email : String)
    (now hours : Int) :
    is_email_sent_recently st email now hours = true ↔
      ∃ ts t, lookupTracker st.sent_emails email = some ts ∧
        fromisoformat ts = some t ∧ now - t < hours * 3600 := by
  unfold is_email_sent_recently
  cases hl : lookupTracker st.sent_emails email with
  | none => simp
  | some ts =>
    cases ht : fromisoformat ts with
    | none => simp [ht]
    | some t => simp [ht]

/-- C4. mark_email_as_sent upserts the tracker entry for the address to
the new timestamp, immediately writes the whole table through to the
durable file, and keeps every address at most once among the keys. -/
theorem mark_email_as_sent_upserts_and_persists (st : EmailAutomation)
    (email : String) (now : Int) :
    lookupTracker (mark_email_as_sent st email now).sent_emails email
        = some (TimeStr.iso now)
    ∧ (mark_email_as_sent st email now).saved_tracker
        = (mark_email_as_sent st email now).sent_emails
    ∧ ((st.sent_emails.map Prod.fst).Nodup →
        ((mark_email_as_sent st email now).sent_emails.map Prod.fst).Nodup) := by
  refine ⟨?_, rfl, fun h => ?_⟩
  · simpa [mark_email_as_sent, save_sent_tracker] using
      lookupTracker_upsert_self st.sent_emails email (TimeStr.iso now)
  · simpa [mark_email_as_sent, save_sent_tracker] using
      nodup_keys_upsertTracker st.sent_emails email (TimeStr.iso now) h

/-- Witness for C4 at a concrete state, address and time. -/
theorem mark_email_as_sent_upserts_and_persists_witness :
    lookupTracker (mark_email_as_sent
        ⟨[("a@x.com", TimeStr.iso 1)], []⟩ "b@x.com" 7).sent_emails "b@x.com"
      = some (TimeStr.iso 7)
    ∧ (mark_email_as_sent ⟨[("a@x.com", TimeStr.iso 1)], []⟩ "b@x.com" 7).saved_tracker
      = (mark_email_as_sent ⟨[("a@x.com", TimeStr.iso 1)], []⟩ "b@x.com" 7).sent_emails
    ∧ (((mark_email_as_sent ⟨[("a@x.com", TimeStr.iso 1)], []⟩
        "b@x.com" 7).sent_emails.map Prod.fst).Nodup) := by
  have h := mark_email_as_sent_upserts_and_persists
    ⟨[("a@x.com", TimeStr.iso 1)], []⟩ "b@x.com" 7
  exact ⟨h.1, h.2.1, h.2.2 (by decide)⟩

/-- C5. Immediately after marking an address, the recency check at the
same instant is true exactly for positive windows. -/
theorem is_recent_after_mark (st : EmailAutomation) (email : String)
    (now W : Int) :
    is_email_sent_recently (mark_email_as_sent st email now) email now W
      = decide (0 < W) := by
  unfold is_email_sent_recently
  have hl : lookupTracker (mark_email_as_sent st email now).sent_emails email
      = some (TimeStr.iso now) := by
    simpa [mark_email_as_sent, save_sent_tracker] using
      lookupTracker_upsert_self st.sent_emails email (TimeStr.iso now)
  rw [hl]
  simp only [fromisoformat]
  rw [decide_eq_decide]
  omega

/-- send_cv_application at the interface boundary: its outcome and its
transport invocations depend only on the attachment check and the
transport oracle, not on the letter contents. -/
theorem send_cv_application_eq (fs smtp : String → Bool)
    (re rn co po cv : String) (cl : Option String) :
    send_cv_application fs smtp re rn co po cv cl
      = if fs cv then (smtp re, [re]) else (false, []) := by
  unfold send_cv_application send_single_email
  split
  · rfl
  · rfl

/-- The bulk CV loop is insensitive to the cover-letter template: the
personalized letter only feeds the message body, never control flow. -/
theorem cv_loop_cover_letter_irrelevant (fs smtp : String → Bool)
    (cv : String) (chk : Bool) (N : Nat) (now : Int)
    (t1 t2 : Option Template) :
    ∀ (rows : List Row) (stats : CvStats) (st : EmailAutomation),
      send_bulk_cv_applications_loop fs smtp cv t1 chk N now rows stats st
        = send_bulk_cv_applications_loop fs smtp cv t2 chk N now rows stats st := by
  intro rows
  induction rows with
  | nil => intro stats st; rfl
  | cons row rest ih =>
    intro stats st
    simp only [send_bulk_cv_applications_loop, send_cv_application_eq, ih]

/-- C6. A placeholder key absent from the record does not drop the
message or raise: personalize_message logs and returns the raw template
unchanged; and the bulk CV dispatcher is driven only by control data, so
a cover-letter template with missing keys yields the very same run as
any other template - a recoverable condition, never a record failure. -/
theorem personalize_missing_key_recoverable (tpl : Template) (data : Row)
    (h : ∃ k, TplPiece.hole k ∈ tpl ∧ lookupField data k = none) :
    personalize_message tpl data = rawTemplate tpl
    ∧ ∀ (fs smtp : String → Bool) (st : EmailAutomation) (rows : List Row)
        (cv : String) (chk : Bool) (N : Nat) (now : Int) (t2 : Template),
        send_bulk_cv_applications fs smtp st rows cv (some tpl) chk N now
          = send_bulk_cv_applications fs smtp st rows cv (some t2) chk N now := by
  constructor
  · obtain ⟨k, hmem, hlook⟩ := h
    unfold personalize_message
    rw [formatTemplate_eq_none_of_missing tpl data k hmem hlook]
  · intro fs smtp st rows cv chk N now t2
    unfold send_bulk_cv_applications
    split
    · exact cv_loop_cover_letter_irrelevant fs smtp cv chk N now
        (some tpl) (some t2) rows ⟨0, 0, 0, 0, none⟩ st
    · rfl

/-- Witness for C6: a template whose only placeholder is absent from the
record, with the dispatcher insensitivity instantiated at a concrete run. -/
theorem personalize_missing_key_recoverable_witness :
    personalize_message [TplPiece.hole "nom"] [("email", "a@x.com")]
      = rawTemplate [TplPiece.hole "nom"]
    ∧ send_bulk_cv_applications (fun _ => true) (fun _ => true) ⟨[], []⟩
        [[("email", "a@x.com")]] "cv.pdf" (some [TplPiece.hole "nom"]) true 10 0
      = send_bulk_cv_applications (fun _ => true) (fun _ => true) ⟨[], []⟩
        [[("email", "a@x.com")]] "cv.pdf" (some [TplPiece.lit "Bonjour"]) true 10 0 := by
  have h := personalize_missing_key_recoverable [TplPiece.hole "nom"]
    [("email", "a@x.com")] ⟨"nom", by decide, by decide⟩
  exact ⟨h.1, h.2 (fun _ => true) (fun _ => true) ⟨[], []⟩
    [[("email", "a@x.com")]] "cv.pdf" true 10 0 [TplPiece.lit "Bonjour"]⟩

/-- One loop step of the bulk CV dispatcher: a recent duplicate is
counted in total and skipped, and iteration continues. -/
theorem cv_loop_cons_skip (fs smtp : String → Bool) (cv : String)
    (tpl : Option Template) (chk : Bool) (N : Nat) (now : Int)
    (row : Row) (rest : List Row) (stats : CvStats) (st : EmailAutomation)
    (hdup : (chk && is_email_sent_recently st
      ((lookupField row "email").getD "") now 24) = true) :
    send_bulk_cv_applications_loop fs smtp cv tpl chk N now (row :: rest) stats st
      = send_bulk_cv_applications_loop fs smtp cv tpl chk N now rest
          { stats with total := stats.total + 1,
                       skipped := stats.skipped + 1 } st := by
  simp only [send_bulk_cv_applications_loop]
  rw [if_pos hdup]

/-- One loop step of the bulk CV dispatcher: with no duplicate skip and
the sent counter at the cap, the loop breaks; the record that triggers
the break was already counted in total and in nothing else. -/
theorem cv_loop_cons_break (fs smtp : String → Bool) (cv : String)
    (tpl : Option Template) (chk : Bool) (N : Nat) (now : Int)
    (row : Row) (rest : List Row) (stats : CvStats) (st : EmailAutomation)
    (hdup : (chk && is_email_sent_recently st
      ((lookupField row "email").getD "") now 24) = false)
    (hcap : N ≤ stats.sent) :
    send_bulk_cv_applications_loop fs smtp cv tpl chk N now (row :: rest) stats st
      = ⟨{ stats with total := stats.total + 1 }, st, [], true⟩ := by
  simp only [send_bulk_cv_applications_loop]
  rw [if_neg (by simp [hdup]), if_pos hcap]

/-- One loop step of the bulk CV dispatcher: below the cap with the CV
present and the transport succeeding, the send is counted, the address
is marked in the tracker, and the attempt is recorded. -/
theorem cv_loop_cons_sent (fs smtp : String → Bool) (cv : String)
    (tpl : Option Template) (chk : Bool) (N : Nat) (now : Int)
    (row : Row) (rest : List Row) (stats : CvStats) (st : EmailAutomation)
    (hdup : (chk && is_email_sent_recently st
      ((lookupField row "email").getD "") now 24) = false)
    (hcap : stats.sent < N)
    (hfs : fs cv = true)
    (hsm : smtp ((lookupField row "email").getD "") = true) :
    send_bulk_cv_applications_loop fs smtp cv tpl chk N now (row :: rest) stats st
      = (fun res => CvRun.mk res.stats res.st
            (((lookupField row "email").getD "") :: res.attempts) res.truncated)
          (send_bulk_cv_applications_loop fs smtp cv tpl chk N now rest
            { stats with total := stats.total + 1, sent := stats.sent + 1 }
            (mark_email_as_sent st ((lookupField row "email").getD "") now)) := by
  simp only [send_bulk_cv_applications_loop]
  rw [if_neg (by simp [hdup]), if_neg (by simpa using Nat.not_le.mpr hcap)]
  simp only [send_cv_application_eq, hfs, if_pos rfl, hsm]
  simp

/-- One loop step of the bulk CV dispatcher: below the cap with the CV
present and the transport failing, the failure is counted, the tracker
is untouched, and the attempt is recorded. -/
theorem cv_loop_cons_failed (fs smtp : String → Bool) (cv : String)
    (tpl : Option Template) (chk : Bool) (N : Nat) (now : Int)
    (row : Row) (rest : List Row) (stats : CvStats) (st : EmailAutomation)
    (hdup : (chk && is_email_sent_recently st
      ((lookupField row "email").getD "") now 24) = false)
    (hcap : stats.sent < N)
    (hfs : fs cv = true)
    (hsm : smtp ((lookupField row "email").getD "") = false) :
    send_bulk_cv_applications_loop fs smtp cv tpl chk N now (row :: rest) stats st
      = (fun res => CvRun.mk res.stats res.st
            (((lookupField row "email").getD "") :: res.attempts) res.truncated)
          (send_bulk_cv_applications_loop fs smtp cv tpl chk N now rest
            { stats with total := stats.total + 1, failed := stats.failed + 1 }
            st) := by
  simp only [send_bulk_cv_applications_loop]
  rw [if_neg (by simp [hdup]), if_neg (by simpa using Nat.not_le.mpr hcap)]
  simp only [send_cv_application_eq, hfs, if_pos rfl, hsm]
  simp

/-- One loop step of the bulk CV dispatcher: below the cap with the CV
path rejected by the attachment check, send_cv_application fails with no
transport invocation and the failure is counted. -/
theorem cv_loop_cons_failed_no_cv (fs smtp : String → Bool) (cv : String)
    (tpl : Option Template) (chk : Bool) (N : Nat) (now : Int)
    (row : Row) (rest : List Row) (stats : CvStats) (st : EmailAutomation)
    (hdup : (chk && is_email_sent_recently st
      ((lookupField row "email").getD "") now 24) = false)
    (hcap : stats.sent < N)
    (hfs : fs cv = false) :
    send_bulk_cv_applications_loop fs smtp cv tpl chk N now (row :: rest) stats st
      = send_bulk_cv_applications_loop fs smtp cv tpl chk N now rest
          { stats with total := stats.total + 1, failed := stats.failed + 1 }
          st := by
  simp only [send_bulk_cv_applications_loop]
  rw [if_neg (by simp [hdup]), if_neg (by simpa using Nat.not_le.mpr hcap)]
  simp only [send_cv_application_eq, hfs]
  simp

/-- Loop invariant: starting from statistics where total is fully
partitioned, the loop keeps total equal to sent + failed + skipped, plus
one for the record that triggered the batch-cap break when there is one. -/
theorem cv_loop_partition (fs smtp : String → Bool) (cv : String)
    (tpl : Option Template) (chk : Bool) (N : Nat) (now : Int) :
    ∀ (rows : List Row) (stats : CvStats) (st : EmailAutomation),
      stats.total = stats.sent + stats.failed + stats.skipped →
      (send_bulk_cv_applications_loop fs smtp cv tpl chk N now rows stats st).stats.total
        = (send_bulk_cv_applications_loop fs smtp cv tpl chk N now rows stats st).stats.sent
          + (send_bulk_cv_applications_loop fs smtp cv tpl chk N now rows stats st).stats.failed
          + (send_bulk_cv_applications_loop fs smtp cv tpl chk N now rows stats st).stats.skipped
          + cond (send_bulk_cv_applications_loop fs smtp cv tpl chk N now rows stats st).truncated 1 0 := by
  intro rows
  induction rows with
  | nil =>
    intro stats st h
    simpa [send_bulk_cv_applications_loop] using h
  | cons row rest ih =>
    intro stats st h
    by_cases hdup : (chk && is_email_sent_recently st
        ((lookupField row "email").getD "") now 24) = true
    · rw [cv_loop_cons_skip fs smtp cv tpl chk N now row rest stats st hdup]
      exact ih _ _ (by simp [h] <;> omega)
    · have hdup2 : (chk && is_email_sent_recently st
          ((lookupField row "email").getD "") now 24) = false := by
        simpa using hdup
      by_cases hcap : N ≤ stats.sent
      · rw [cv_loop_cons_break fs smtp cv tpl chk N now row rest stats st hdup2 hcap]
        simp [h] <;> omega
      · have hcap2 : stats.sent < N := Nat.not_le.mp hcap
        by_cases hfs : fs cv = true
        · by_cases hsm : smtp ((lookupField row "email").getD "") = true
          · rw [cv_loop_cons_sent fs smtp cv tpl chk N now row rest stats st
              hdup2 hcap2 hfs hsm]
            simpa using ih _ _ (by simp [h] <;> omega)
          · have hsm2 : smtp ((lookupField row "email").getD "") = false := by
              simpa using hsm
            rw [cv_loop_cons_failed fs smtp cv tpl chk N now row rest stats st
              hdup2 hcap2 hfs hsm2]
            simpa using ih _ _ (by simp [h] <;> omega)
        · have hfs2 : fs cv = false := by simpa using hfs
          rw [cv_loop_cons_failed_no_cv fs smtp cv tpl chk N now row rest stats st
            hdup2 hcap2 hfs2]
          exact ih _ _ (by simp [h] <;> omega)

/-- Loop invariant: the sent counter never passes the batch cap, and the
cap break fires only with the sent counter exactly at the cap. -/
theorem cv_loop_sent_le (fs smtp : String → Bool) (cv : String)
    (tpl : Option Template) (chk : Bool) (N : Nat) (now : Int) :
    ∀ (rows : List Row) (stats : CvStats) (st : EmailAutomation),
      stats.sent ≤ N →
      (send_bulk_cv_applications_loop fs smtp cv tpl chk N now rows stats st).stats.sent ≤ N
      ∧ ((send_bulk_cv_applications_loop fs smtp cv tpl chk N now rows stats st).truncated = true →
          (send_bulk_cv_applications_loop fs smtp cv tpl chk N now rows stats st).stats.sent = N) := by
  intro rows
  induction rows with
  | nil =>
    intro stats st h
    refine ⟨by simpa [send_bulk_cv_applications_loop] using h, fun ht => ?_⟩
    simp [send_bulk_cv_applications_loop] at ht
  | cons row rest ih =>
    intro stats st h
    by_cases hdup : (chk && is_email_sent_recently st
        ((lookupField row "email").getD "") now 24) = true
    · rw [cv_loop_cons_skip fs smtp cv tpl chk N now row rest stats st hdup]
      exact ih _ _ h
    · have hdup2 : (chk && is_email_sent_recently st
          ((lookupField row "email").getD "") now 24) = false := by
        simpa using hdup
      by_cases hcap : N ≤ stats.sent
      · rw [cv_loop_cons_break fs smtp cv tpl chk N now row rest stats st hdup2 hcap]
        exact ⟨h, fun _ => Nat.le_antisymm h hcap⟩
      · have hcap2 : stats.sent < N := Nat.not_le.mp hcap
        by_cases hfs : fs cv = true
        · by_cases hsm : smtp ((lookupField row "email").getD "") = true
          · rw [cv_loop_cons_sent fs smtp cv tpl chk N now row rest stats st
              hdup2 hcap2 hfs hsm]
            simpa using ih
              { stats with total := stats.total + 1, sent := stats.sent + 1 }
              (mark_email_as_sent st ((lookupField row "email").getD "") now) hcap2
          · have hsm2 : smtp ((lookupField row "email").getD "") = false := by
              simpa using hsm
            rw [cv_loop_cons_failed fs smtp cv tpl chk N now row rest stats st
              hdup2 hcap2 hfs hsm2]
            simpa using ih
              { stats with total := stats.total + 1, failed := stats.failed + 1 }
              st h
        · have hfs2 : fs cv = false := by simpa using hfs
          rw [cv_loop_cons_failed_no_cv fs smtp cv tpl chk N now row rest stats st
            hdup2 hcap2 hfs2]
          exact ih
            { stats with total := stats.total + 1, failed := stats.failed + 1 }
            st h

/-- One loop step of send_bulk_emails: a row without an email field makes
the subscript raise, so the loop ends with only total incremented. -/
theorem bulk_loop_cons_none (smtp : String → Bool) (sub bod : Template)
    (htm : Option Template) (row : Row) (rest : List Row)
    (stats : BulkStats) (st : EmailAutomation)
    (h : lookupField row "email" = none) :
    send_bulk_emails_loop smtp sub bod htm (row :: rest) stats st
      = ⟨{ stats with total := stats.total + 1 }, st, [], true⟩ := by
  simp only [send_bulk_emails_loop, h]

/-- One loop step of send_bulk_emails: a row with an email field is
always attempted, counted as sent or failed by the transport outcome. -/
theorem bulk_loop_cons_some (smtp : String → Bool) (sub bod : Template)
    (htm : Option Template) (row : Row) (rest : List Row)
    (stats : BulkStats) (st : EmailAutomation) (email : String)
    (h : lookupField row "email" = some email) :
    send_bulk_emails_loop smtp sub bod htm (row :: rest) stats st
      = (fun res => BulkRun.mk res.stats res.st (email :: res.attempts) res.aborted)
          (send_bulk_emails_loop smtp sub bod htm rest
            (if smtp email then
              { stats with total := stats.total + 1, sent := stats.sent + 1 }
             else
              { stats with total := stats.total + 1, failed := stats.failed + 1 })
            st) := by
  simp only [send_bulk_emails_loop, h, send_single_email]
  simp

/-- Loop invariant for send_bulk_emails: total stays partitioned into
sent, failed, and one extra for the record whose missing email field
aborted the iteration, when there is one. -/
theorem bulk_loop_partition (smtp : String → Bool) (sub bod : Template)
    (htm : Option Template) :
    ∀ (rows : List Row) (stats : BulkStats) (st : EmailAutomation),
      stats.total = stats.sent + stats.failed →
      (send_bulk_emails_loop smtp sub bod htm rows stats st).stats.total
        = (send_bulk_emails_loop smtp sub bod htm rows stats st).stats.sent
          + (send_bulk_emails_loop smtp sub bod htm rows stats st).stats.failed
          + cond (send_bulk_emails_loop smtp sub bod htm rows stats st).aborted 1 0 := by
  intro rows
  induction rows with
  | nil =>
    intro stats st h
    simpa [send_bulk_emails_loop] using h
  | cons row rest ih =>
    intro stats st h
    cases he : lookupField row "email" with
    | none =>
      rw [bulk_loop_cons_none smtp sub bod htm row rest stats st he]
      simp [h]
    | some email =>
      rw [bulk_loop_cons_some smtp sub bod htm row rest stats st email he]
      by_cases hsm : smtp email = true
      · simp only [hsm, if_pos rfl]
        simpa using ih _ _ (by simp [h] <;> omega)
      · have hsm2 : smtp email = false := by simpa using hsm
        simp only [hsm2]
        rw [if_neg (by simp)]
        simpa using ih _ _ (by simp [h] <;> omega)

/-- send_bulk_emails never touches the object state: the tracker is
neither read nor written anywhere in its body. -/
theorem bulk_loop_st_unchanged (smtp : String → Bool) (sub bod : Template)
    (htm : Option Template) :
    ∀ (rows : List Row) (stats : BulkStats) (st : EmailAutomation),
      (send_bulk_emails_loop smtp sub bod htm rows stats st).st = st := by
  intro rows
  induction rows with
  | nil => intro stats st; rfl
  | cons row rest ih =>
    intro stats st
    cases he : lookupField row "email" with
    | none => rw [bulk_loop_cons_none smtp sub bod htm row rest stats st he]
    | some email =>
      rw [bulk_loop_cons_some smtp sub bod htm row rest stats st email he]
      simpa using ih _ _

/-- When every row carries an email field, send_bulk_emails attempts one
transport invocation per row and the iteration is never aborted. -/
theorem bulk_loop_attempts (smtp : String → Bool) (sub bod : Template)
    (htm : Option Template) :
    ∀ (rows : List Row) (stats : BulkStats) (st : EmailAutomation),
      (∀ row ∈ rows, lookupField row "email" ≠ none) →
      (send_bulk_emails_loop smtp sub bod htm rows stats st).attempts.length
          = rows.length
      ∧ (send_bulk_emails_loop smtp sub bod htm rows stats st).aborted = false := by
  intro rows
  induction rows with
  | nil =>
    intro stats st _
    exact ⟨rfl, rfl⟩
  | cons row rest ih =>
    intro stats st hall
    have hhead : lookupField row "email" ≠ none := hall row (List.mem_cons_self row rest)
    obtain ⟨email, heq⟩ := Option.ne_none_iff_exists'.mp hhead
    rw [bulk_loop_cons_some smtp sub bod htm row rest stats st email heq]
    have htail : ∀ r ∈ rest, lookupField r "email" ≠ none :=
      fun r hr => hall r (List.mem_cons_of_mem row hr)
    have := ih (if smtp email then
        { stats with total := stats.total + 1, sent := stats.sent + 1 }
      else
        { stats with total := stats.total + 1, failed := stats.failed + 1 }) st htail
    simpa using this

/-- Top-level partition identity for the bulk CV dispatch. -/
theorem cv_top_partition (fs smtp : String → Bool) (st : EmailAutomation)
    (rows : List Row) (cv : String) (tpl : Option Template) (chk : Bool)
    (N : Nat) (now : Int) :
    (send_bulk_cv_applications fs smtp st rows cv tpl chk N now).stats.total
      = (send_bulk_cv_applications fs smtp st rows cv tpl chk N now).stats.sent
        + (send_bulk_cv_applications fs smtp st rows cv tpl chk N now).stats.failed
        + (send_bulk_cv_applications fs smtp st rows cv tpl chk N now).stats.skipped
        + cond (send_bulk_cv_applications fs smtp st rows cv tpl chk N now).truncated 1 0 := by
  unfold send_bulk_cv_applications
  by_cases hfs : fs cv = true
  · simp only [hfs, if_pos rfl]
    exact cv_loop_partition fs smtp cv tpl chk N now rows ⟨0, 0, 0, 0, none⟩ st rfl
  · have hfs2 : fs cv = false := by simpa using hfs
    simp [hfs2]

/-- Top-level cap bound for the bulk CV dispatch. -/
theorem cv_top_sent_le (fs smtp : String → Bool) (st : EmailAutomation)
    (rows : List Row) (cv : String) (tpl : Option Template) (chk : Bool)
    (N : Nat) (now : Int) :
    (send_bulk_cv_applications fs smtp st rows cv tpl chk N now).stats.sent ≤ N
    ∧ ((send_bulk_cv_applications fs smtp st rows cv tpl chk N now).truncated = true →
        (send_bulk_cv_applications fs smtp st rows cv tpl chk N now).stats.sent = N) := by
  unfold send_bulk_cv_applications
  by_cases hfs : fs cv = true
  · simp only [hfs, if_pos rfl]
    exact cv_loop_sent_le fs smtp cv tpl chk N now rows ⟨0, 0, 0, 0, none⟩ st
      (Nat.zero_le N)
  · have hfs2 : fs cv = false := by simpa using hfs
    simp [hfs2]

/-- Top-level partition identity for send_bulk_emails. -/
theorem bulk_top_partition (smtp : String → Bool) (st : EmailAutomation)
    (rows : List Row) (sub bod : Template) (htm : Option Template) :
    (send_bulk_emails smtp st rows sub bod htm).stats.total
      = (send_bulk_emails smtp st rows sub bod htm).stats.sent
        + (send_bulk_emails smtp st rows sub bod htm).stats.failed
        + cond (send_bulk_emails smtp st rows sub bod htm).aborted 1 0 :=
  bulk_loop_partition smtp sub bod htm rows ⟨0, 0, 0⟩ st rfl

/-- C1 is false as stated: with max batch size 1 and two distinct
recipient addresses, a transport that fails both times receives two
invocations, because the cap compares the successful-send counter only. -/
theorem batch_cap_attempts_counterexample :
    List.Nodup ["a@x.com", "b@x.com"]
    ∧ ¬ ((send_bulk_cv_applications (fun _ => true) (fun _ => false) ⟨[], []⟩
        [[("email", "a@x.com")], [("email", "b@x.com")]] "cv.pdf" none true 1
        0).attempts.length ≤ 1) := by
  decide

/-- C1 (amended). A single bulk CV dispatch performs at most N successful
sends: the sent counter never exceeds the configured maximum, while
failed transport invocations are not limited by the cap. -/
theorem batch_cap_bounds_sent (fs smtp : String → Bool) (st : EmailAutomation)
    (rows : List Row) (cv : String) (tpl : Option Template) (chk : Bool)
    (N : Nat) (now : Int) :
    (send_bulk_cv_applications fs smtp st rows cv tpl chk N now).stats.sent ≤ N :=
  (cv_top_sent_le fs smtp st rows cv tpl chk N now).1

/-- C2. In both bulk paths the counters other than total sum to at most
total, with equality when neither the batch cap break nor the missing
email-field abort ended the iteration early. -/
theorem stats_partition_invariant (fs smtp : String → Bool)
    (st : EmailAutomation) (rows : List Row) (cv : String)
    (tpl : Option Template) (chk : Bool) (N : Nat) (now : Int)
    (smtp2 : String → Bool) (st2 : EmailAutomation) (rows2 : List Row)
    (sub bod : Template) (htm : Option Template) :
    ((send_bulk_cv_applications fs smtp st rows cv tpl chk N now).stats.sent
      + (send_bulk_cv_applications fs smtp st rows cv tpl chk N now).stats.failed
      + (send_bulk_cv_applications fs smtp st rows cv tpl chk N now).stats.skipped
      ≤ (send_bulk_cv_applications fs smtp st rows cv tpl chk N now).stats.total)
    ∧ ((send_bulk_cv_applications fs smtp st rows cv tpl chk N now).truncated = false →
        (send_bulk_cv_applications fs smtp st rows cv tpl chk N now).stats.sent
        + (send_bulk_cv_applications fs smtp st rows cv tpl chk N now).stats.failed
        + (send_bulk_cv_applications fs smtp st rows cv tpl chk N now).stats.skipped
        = (send_bulk_cv_applications fs smtp st rows cv tpl chk N now).stats.total)
    ∧ ((send_bulk_emails smtp2 st2 rows2 sub bod htm).stats.sent
      + (send_bulk_emails smtp2 st2 rows2 sub bod htm).stats.failed
      ≤ (send_bulk_emails smtp2 st2 rows2 sub bod htm).stats.total)
    ∧ ((send_bulk_emails smtp2 st2 rows2 sub bod htm).aborted = false →
        (send_bulk_emails smtp2 st2 rows2 sub bod htm).stats.sent
        + (send_bulk_emails smtp2 st2 rows2 sub bod htm).stats.failed
        = (send_bulk_emails smtp2 st2 rows2 sub bod htm).stats.total) := by
  have h1 := cv_top_partition fs smtp st rows cv tpl chk N now
  have h2 := bulk_top_partition smtp2 st2 rows2 sub bod htm
  refine ⟨by omega, fun ht => ?_, by omega, fun ha => ?_⟩
  · rw [ht] at h1
    simpa using h1.symm
  · rw [ha] at h2
    simpa using h2.symm

/-- Witness for C2: a capped-but-untruncated CV run with two failures and
an unaborted plain bulk run with one success. -/
theorem stats_partition_invariant_witness :
    ((send_bulk_cv_applications (fun _ => true) (fun _ => false) ⟨[], []⟩
        [[("email", "a@x.com")], [("email", "b@x.com")]] "cv.pdf" none true 1 0).stats.sent
      + (send_bulk_cv_applications (fun _ => true) (fun _ => false) ⟨[], []⟩
        [[("email", "a@x.com")], [("email", "b@x.com")]] "cv.pdf" none true 1 0).stats.failed
      + (send_bulk_cv_applications (fun _ => true) (fun _ => false) ⟨[], []⟩
        [[("email", "a@x.com")], [("email", "b@x.com")]] "cv.pdf" none true 1 0).stats.skipped
      ≤ (send_bulk_cv_applications (fun _ => true) (fun _ => false) ⟨[], []⟩
        [[("email", "a@x.com")], [("email", "b@x.com")]] "cv.pdf" none true 1 0).stats.total)
    ∧ ((send_bulk_cv_applications (fun _ => true) (fun _ => false) ⟨[], []⟩
        [[("email", "a@x.com")], [("email", "b@x.com")]] "cv.pdf" none true 1 0).stats.sent
      + (send_bulk_cv_applications (fun _ => true) (fun _ => false) ⟨[], []⟩
        [[("email", "a@x.com")], [("email", "b@x.com")]] "cv.pdf" none true 1 0).stats.failed
      + (send_bulk_cv_applications (fun _ => true) (fun _ => false) ⟨[], []⟩
        [[("email", "a@x.com")], [("email", "b@x.com")]] "cv.pdf" none true 1 0).stats.skipped
      = (send_bulk_cv_applications (fun _ => true) (fun _ => false) ⟨[], []⟩
        [[("email", "a@x.com")], [("email", "b@x.com")]] "cv.pdf" none true 1 0).stats.total)
    ∧ ((send_bulk_emails (fun _ => true) ⟨[], []⟩ [[("email", "a@x.com")]] [] [] none).stats.sent
      + (send_bulk_emails (fun _ => true) ⟨[], []⟩ [[("email", "a@x.com")]] [] [] none).stats.failed
      ≤ (send_bulk_emails (fun _ => true) ⟨[], []⟩ [[("email", "a@x.com")]] [] [] none).stats.total)
    ∧ ((send_bulk_emails (fun _ => true) ⟨[], []⟩ [[("email", "a@x.com")]] [] [] none).stats.sent
      + (send_bulk_emails (fun _ => true) ⟨[], []⟩ [[("email", "a@x.com")]] [] [] none).stats.failed
      = (send_bulk_emails (fun _ => true) ⟨[], []⟩ [[("email", "a@x.com")]] [] [] none).stats.total) := by
  have h := stats_partition_invariant (fun _ => true) (fun _ => false) ⟨[], []⟩
    [[("email", "a@x.com")], [("email", "b@x.com")]] "cv.pdf" none true 1 0
    (fun _ => true) ⟨[], []⟩ [[("email", "a@x.com")]] [] [] none
  exact ⟨h.1, h.2.1 (by decide), h.2.2.1, h.2.2.2 (by decide)⟩

/-- C7. When the attachment path does not exist, both the single CV
application and the bulk CV batch return a failure result without a
single transport invocation. -/
theorem missing_attachment_no_transport (fs smtp : String → Bool)
    (re rn co po cv : String) (cl : Option String) (st : EmailAutomation)
    (rows : List Row) (tpl : Option Template) (chk : Bool) (N : Nat) (now : Int)
    (h : fs cv = false) :
    send_cv_application fs smtp re rn co po cv cl = (false, [])
    ∧ send_bulk_cv_applications fs smtp st rows cv tpl chk N now
        = ⟨⟨0, 0, 0, 0, some "CV file not found"⟩, st, [], false⟩ := by
  constructor
  · rw [send_cv_application_eq]
    rw [if_neg (by simp [h])]
  · unfold send_bulk_cv_applications
    rw [if_neg (by simp [h])]

/-- Witness for C7 with a filesystem oracle rejecting every path. -/
theorem missing_attachment_no_transport_witness :
    send_cv_application (fun _ => false) (fun _ => true) "a@x.com" "A" "C" "P"
        "cv.pdf" none = (false, [])
    ∧ send_bulk_cv_applications (fun _ => false) (fun _ => true) ⟨[], []⟩
        [[("email", "a@x.com")]] "cv.pdf" none true 10 0
        = ⟨⟨0, 0, 0, 0, some "CV file not found"⟩, ⟨[], []⟩, [], false⟩ := by
  exact missing_attachment_no_transport (fun _ => false) (fun _ => true)
    "a@x.com" "A" "C" "P" "cv.pdf" none ⟨[], []⟩ [[("email", "a@x.com")]]
    none true 10 0 rfl

/-- C8 is false as stated for the plain bulk path: a record without an
email field is counted in total, but the KeyError it raises aborts the
remaining iteration, so failed stays zero and the following valid record
is never attempted. -/
theorem missing_email_counterexample :
    (send_bulk_emails (fun _ => true) ⟨[], []⟩
        [[("nom", "x")], [("email", "b@x.com")]] [] [] none).stats.failed = 0
    ∧ (send_bulk_emails (fun _ => true) ⟨[], []⟩
        [[("nom", "x")], [("email", "b@x.com")]] [] [] none).attempts = []
    ∧ (send_bulk_emails (fun _ => true) ⟨[], []⟩
        [[("nom", "x")], [("email", "b@x.com")]] [] [] none).stats.total = 1 := by
  decide

/-- C8 (amended). A record without an email field aborts the remaining
iteration of send_bulk_emails with only total incremented; in
send_bulk_cv_applications such a record is given the empty-string
address, and when the transport rejects it (and it is neither skipped
nor capped) it is counted as failed and iteration continues. -/
theorem missing_email_behavior (smtp : String → Bool) (sub bod : Template)
    (htm : Option Template) (row : Row) (rest : List Row) (stats : BulkStats)
    (st : EmailAutomation) (fs smtp2 : String → Bool) (cv : String)
    (tpl : Option Template) (chk : Bool) (N : Nat) (now : Int) (row2 : Row)
    (rest2 : List Row) (stats2 : CvStats) (st2 : EmailAutomation)
    (h1 : lookupField row "email" = none)
    (h2 : lookupField row2 "email" = none)
    (h3 : smtp2 "" = false)
    (h4 : fs cv = true)
    (h5 : is_email_sent_recently st2 "" now 24 = false)
    (h6 : stats2.sent < N) :
    send_bulk_emails_loop smtp sub bod htm (row :: rest) stats st
      = ⟨{ stats with total := stats.total + 1 }, st, [], true⟩
    ∧ send_bulk_cv_applications_loop fs smtp2 cv tpl chk N now
        (row2 :: rest2) stats2 st2
      = (fun res => CvRun.mk res.stats res.st ("" :: res.attempts) res.truncated)
          (send_bulk_cv_applications_loop fs smtp2 cv tpl chk N now rest2
            { stats2 with total := stats2.total + 1,
                          failed := stats2.failed + 1 } st2) := by
  constructor
  · exact bulk_loop_cons_none smtp sub bod htm row rest stats st h1
  · have hdup : (chk && is_email_sent_recently st2
        ((lookupField row2 "email").getD "") now 24) = false := by
      rw [h2]
      simpa using fun _ => h5
    have hstep := cv_loop_cons_failed fs smtp2 cv tpl chk N now row2 rest2
      stats2 st2 hdup h6 h4 (by rw [h2]; exact h3)
    rw [h2] at hstep
    simpa using hstep

/-- Witness for C8 (amended) at concrete records and oracles. -/
theorem missing_email_behavior_witness :
    send_bulk_emails_loop (fun _ => true) [] [] none [[("nom", "x")]]
        ⟨0, 0, 0⟩ ⟨[], []⟩
      = ⟨⟨0, 0, 1⟩, ⟨[], []⟩, [], true⟩
    ∧ send_bulk_cv_applications_loop (fun _ => true) (fun _ => false) "cv.pdf"
        none true 1 0 [[("nom", "x")]] ⟨0, 0, 0, 0, none⟩ ⟨[], []⟩
      = ⟨⟨0, 1, 1, 0, none⟩, ⟨[], []⟩, [""], false⟩ := by
  have h := missing_email_behavior (fun _ => true) [] [] none [("nom", "x")] []
    ⟨0, 0, 0⟩ ⟨[], []⟩ (fun _ => true) (fun _ => false) "cv.pdf" none true 1 0
    [("nom", "x")] [] ⟨0, 0, 0, 0, none⟩ ⟨[], []⟩
    (by decide) (by decide) rfl rfl (by decide) (by decide)
  exact ⟨h.1, h.2⟩

/-- C9. The per-record total increment and the duplicate check precede
the batch-cap check: when the cap break ends the iteration, the breaking
record is already counted in total and in nothing else, so total exceeds
the partition by exactly one; and the break only fires with the sent
counter exactly at the cap, so duplicate skips never consume it. -/
theorem cap_truncation_exact (fs smtp : String → Bool) (st : EmailAutomation)
    (rows : List Row) (cv : String) (tpl : Option Template) (chk : Bool)
    (N : Nat) (now : Int)
    (h : (send_bulk_cv_applications fs smtp st rows cv tpl chk N now).truncated = true) :
    (send_bulk_cv_applications fs smtp st rows cv tpl chk N now).stats.total
      = (send_bulk_cv_applications fs smtp st rows cv tpl chk N now).stats.sent
        + (send_bulk_cv_applications fs smtp st rows cv tpl chk N now).stats.failed
        + (send_bulk_cv_applications fs smtp st rows cv tpl chk N now).stats.skipped
        + 1
    ∧ (send_bulk_cv_applications fs smtp st rows cv tpl chk N now).stats.sent = N := by
  have h1 := cv_top_partition fs smtp st rows cv tpl chk N now
  rw [h] at h1
  exact ⟨by simpa using h1,
    (cv_top_sent_le fs smtp st rows cv tpl chk N now).2 h⟩

/-- Witness for C9: a cap of one, a working transport and two records;
the second record triggers the break after being counted. -/
theorem cap_truncation_exact_witness :
    (send_bulk_cv_applications (fun _ => true) (fun _ => true) ⟨[], []⟩
        [[("email", "a@x.com")], [("email", "b@x.com")]] "cv.pdf" none true 1 0).stats.total
      = (send_bulk_cv_applications (fun _ => true) (fun _ => true) ⟨[], []⟩
          [[("email", "a@x.com")], [("email", "b@x.com")]] "cv.pdf" none true 1 0).stats.sent
        + (send_bulk_cv_applications (fun _ => true) (fun _ => true) ⟨[], []⟩
          [[("email", "a@x.com")], [("email", "b@x.com")]] "cv.pdf" none true 1 0).stats.failed
        + (send_bulk_cv_applications (fun _ => true) (fun _ => true) ⟨[], []⟩
          [[("email", "a@x.com")], [("email", "b@x.com")]] "cv.pdf" none true 1 0).stats.skipped
        + 1
    ∧ (send_bulk_cv_applications (fun _ => true) (fun _ => true) ⟨[], []⟩
        [[("email", "a@x.com")], [("email", "b@x.com")]] "cv.pdf" none true 1 0).stats.sent = 1 := by
  exact cap_truncation_exact (fun _ => true) (fun _ => true) ⟨[], []⟩
    [[("email", "a@x.com")], [("email", "b@x.com")]] "cv.pdf" none true 1 0
    (by decide)

/-- C10 is false as stated: a file whose rows lack the email field is not
fully attempted - with two rows the run makes zero transport invocations,
because the first missing email field aborts the iteration. -/
theorem bulk_every_row_attempted_counterexample :
    ¬ ((send_bulk_emails (fun _ => true) ⟨[], []⟩
        [[("nom", "x")], [("email", "b@x.com")]] [] [] none).attempts.length
      = ([[("nom", "x")], [("email", "b@x.com")]] : List Row).length) := by
  decide

/-- C10 (amended). send_bulk_emails never reads or writes the tracker
state, counts every processed record as sent or failed (no duplicate
skip exists in this path), and, whenever every row carries an email
field, attempts every row of the file with no cap and no abort; a row
missing the email field instead aborts the remaining iteration. -/
theorem bulk_emails_frame (smtp : String → Bool) (st : EmailAutomation)
    (rows : List Row) (sub bod : Template) (htm : Option Template) :
    (send_bulk_emails smtp st rows sub bod htm).st = st
    ∧ (send_bulk_emails smtp st rows sub bod htm).stats.sent
        + (send_bulk_emails smtp st rows sub bod htm).stats.failed
        + cond (send_bulk_emails smtp st rows sub bod htm).aborted 1 0
        = (send_bulk_emails smtp st rows sub bod htm).stats.total
    ∧ ((∀ row ∈ rows, lookupField row "email" ≠ none) →
        (send_bulk_emails smtp st rows sub bod htm).attempts.length = rows.length
        ∧ (send_bulk_emails smtp st rows sub bod htm).aborted = false) := by
  refine ⟨bulk_loop_st_unchanged smtp sub bod htm rows ⟨0, 0, 0⟩ st, ?_, ?_⟩
  · exact (bulk_top_partition smtp st rows sub bod htm).symm
  · intro hall
    exact bulk_loop_attempts smtp sub bod htm rows ⟨0, 0, 0⟩ st hall

/-- Witness for C10 (amended) on a one-row file with an email field. -/
theorem bulk_emails_frame_witness :
    (send_bulk_emails (fun _ => true) ⟨[], []⟩ [[("email", "a@x.com")]]
        [] [] none).st = ⟨[], []⟩
    ∧ (send_bulk_emails (fun _ => true) ⟨[], []⟩ [[("email", "a@x.com")]]
        [] [] none).stats.sent
      + (send_bulk_emails (fun _ => true) ⟨[], []⟩ [[("email", "a@x.com")]]
        [] [] none).stats.failed
      + cond (send_bulk_emails (fun _ => true) ⟨[], []⟩ [[("email", "a@x.com")]]
        [] [] none).aborted 1 0
      = (send_bulk_emails (fun _ => true) ⟨[], []⟩ [[("email", "a@x.com")]]
        [] [] none).stats.total
    ∧ ((send_bulk_emails (fun _ => true) ⟨[], []⟩ [[("email", "a@x.com")]]
        [] [] none).attempts.length = 1
      ∧ (send_bulk_emails (fun _ => true) ⟨[], []⟩ [[("email", "a@x.com")]]
        [] [] none).aborted = false) := by
  have h := bulk_emails_frame (fun _ => true) ⟨[], []⟩ [[("email", "a@x.com")]]
    [] [] none
  exact ⟨h.1, h.2.1, h.2.2 (by decide)⟩
